import Mathlib

/-!
Shallow embedding of the CRM validation and creation engine and the filter
engine from `crm/schema.py`.  Storage is modelled as in-memory lists of
records; Django persistence calls become explicit state updates.  Python
`Decimal` currency values are modelled as rationals, timestamps as natural
numbers, and database ids as integers.
-/

/-- A stored Customer row, with the fields used by `crm/schema.py` and listed
in the admin declarations: `id`, `name`, `email`, `phone`, `created_at`. -/
structure Customer where
  id : Int
  name : String
  email : String
  phone : Option String
  createdAt : Nat
deriving Repr, DecidableEq

/-- A stored Product row: `id`, `name`, `price` (decimal), `stock`. -/
structure Product where
  id : Int
  name : String
  price : ℚ
  stock : Int
deriving Repr, DecidableEq

/-- A stored Order row.  `productIds` records the many-to-many association
written by `order.products.set(products)`. -/
structure Order where
  id : Int
  customerId : Int
  productIds : List Int
  totalAmount : ℚ
  orderDate : Nat
deriving Repr, DecidableEq

/-- The storage collaborator: one table per entity plus the id sequence used
for newly created rows. -/
structure State where
  customers : List Customer
  products : List Product
  orders : List Order
  nextId : Int
deriving Repr, DecidableEq

/-- Character class `[\d\-]` of `PHONE_REGEX`: ASCII digits and the hyphen. -/
def isPhoneChar (c : Char) : Bool := c.isDigit || c == '-'

/-- Core pattern `\+?\d[\d\-]{6,20}` of `PHONE_REGEX` matched against a whole
character list: an optional leading plus sign, then a digit, then 6 to 20
characters that are digits or hyphens. -/
def phonePatternCore (cs : List Char) : Bool :=
  let body := if cs.head? == some '+' then cs.tail else cs
  match body with
  | [] => false
  | d :: rest =>
      d.isDigit && decide (6 ≤ rest.length) && decide (rest.length ≤ 20) &&
        rest.all isPhoneChar

/-- Embedding of `PHONE_REGEX.match(phone)` over the whole string.  Python
`re.match` with a trailing `$` anchor succeeds either at the very end of the
string or just before a single newline that ends the string, so a value whose
final character is `\n` and whose remaining prefix matches the core pattern is
also accepted by the source regex. -/
def phoneRegexMatch (s : String) : Bool :=
  phonePatternCore s.data ||
    (s.data.getLast? == some '\n' && phonePatternCore s.data.dropLast)

/-- Argument record of the `CustomerInput` graphene input type. -/
structure CustomerInput where
  name : String
  email : String
  phone : Option String
deriving Repr, DecidableEq

/-- Mirrors `Customer.objects.filter(email=...).exists()`. -/
def emailExists (s : State) (email : String) : Bool :=
  s.customers.any (fun c => c.email == email)

/-- Mirrors the `Customer.objects.create(...)` call shared by
`CreateCustomer.mutate` and `BulkCreateCustomers.mutate`: the stored phone is
`phone or None`, so an empty phone string is stored as absent. -/
def mkCustomer (id : Int) (input : CustomerInput) (now : Nat) : Customer :=
  let phone := input.phone.getD ""
  { id := id, name := input.name, email := input.email,
    phone := if phone = "" then none else some phone, createdAt := now }

/-- Payload of the `CreateCustomer` mutation. -/
structure CreateCustomerResult where
  customer : Option Customer
  message : Option String
  errors : List String
deriving Repr, DecidableEq

/-- Embedding of `CreateCustomer.mutate`: check the email existence first,
then (independently) the phone pattern on a non-empty phone; on any error
return no customer and leave storage unchanged, otherwise persist. -/
def createCustomer (s : State) (input : CustomerInput) (now : Nat) :
    CreateCustomerResult × State :=
  let errors : List String :=
    if emailExists s input.email then ["Email already exists."] else []
  let phone := input.phone.getD ""
  let errors := errors ++
    (if phone != "" && !phoneRegexMatch phone
     then ["Invalid phone number format."] else [])
  if errors ≠ [] then
    ({ customer := none, message := none, errors := errors }, s)
  else
    let c := mkCustomer s.nextId input now
    ({ customer := some c, message := some "Customer created successfully.",
       errors := [] },
     { s with customers := s.customers ++ [c], nextId := s.nextId + 1 })

/-- The empty store used by concrete instances below. -/
def emptyState : State :=
  { customers := [], products := [], orders := [], nextId := 1 }

/-- Payload of the `BulkCreateCustomers` mutation. -/
structure BulkCreateCustomersResult where
  customers : List Customer
  errors : List String
deriving Repr, DecidableEq

/-- Row loop of `BulkCreateCustomers.mutate`: each row runs the same two
checks as `CreateCustomer.mutate` against the current store state; a failing
row is recorded as `Row {index}: {row errors joined by semicolons}` and
skipped, a passing row is persisted immediately before the next row runs. -/
def bulkRows (s : State) (idx : Nat) (inputs : List CustomerInput) (now : Nat) :
    List Customer × List String × State :=
  match inputs with
  | [] => ([], [], s)
  | ci :: rest =>
      let rowErrors : List String :=
        (if emailExists s ci.email then ["Email already exists."] else []) ++
        (let phone := ci.phone.getD ""
         if phone != "" && !phoneRegexMatch phone
         then ["Invalid phone number format."] else [])
      if rowErrors ≠ [] then
        let r := bulkRows s (idx + 1) rest now
        (r.1,
         ("Row " ++ toString idx ++ ": " ++ String.intercalate "; " rowErrors)
           :: r.2.1,
         r.2.2)
      else
        let c := mkCustomer s.nextId ci now
        let s1 := { s with customers := s.customers ++ [c], nextId := s.nextId + 1 }
        let r := bulkRows s1 (idx + 1) rest now
        (c :: r.1, r.2.1, r.2.2)

/-- Embedding of `BulkCreateCustomers.mutate`. -/
def bulkCreateCustomers (s : State) (input : List CustomerInput) (now : Nat) :
    BulkCreateCustomersResult × State :=
  let r := bulkRows s 0 input now
  ({ customers := r.1, errors := r.2.1 }, r.2.2)

/-- A price argument as seen by `CreateProduct.mutate`.  The source computes
`Decimal(str(input.price))` inside a try block that also contains the
positivity comparison: `num q` stands for a value whose decimal conversion
yields `q`, `notDecimal r` for a value (with string form `r`) for which the
conversion raises and control jumps to the except branch. -/
inductive PriceVal where
  | num (q : ℚ)
  | notDecimal (r : String)
deriving Repr, DecidableEq

/-- Argument record of the `ProductInput` graphene input type. -/
structure ProductInput where
  name : String
  price : PriceVal
  stock : Option Int
deriving Repr, DecidableEq

/-- Payload of the `CreateProduct` mutation. -/
structure CreateProductResult where
  product : Option Product
  errors : List String
deriving Repr, DecidableEq

/-- Embedding of `CreateProduct.mutate`: the price check (parse, then strict
positivity) and the stock check (non-negative, default 0) both run before the
error test; on any error return no product and leave storage unchanged. -/
def createProduct (s : State) (input : ProductInput) :
    CreateProductResult × State :=
  let priceErrors : List String :=
    match input.price with
    | .num q => if q ≤ 0 then ["Price must be positive."] else []
    | .notDecimal _ => ["Invalid price value."]
  let stock : Int := match input.stock with | some v => v | none => 0
  let errors := priceErrors ++
    (if stock < 0 then ["Stock cannot be negative."] else [])
  if errors ≠ [] then
    ({ product := none, errors := errors }, s)
  else
    match input.price with
    | .num q =>
        let p : Product :=
          { id := s.nextId, name := input.name, price := q, stock := stock }
        ({ product := some p, errors := [] },
         { s with products := s.products ++ [p], nextId := s.nextId + 1 })
    | .notDecimal _ =>
        -- dead branch: a failed parse put "Invalid price value." into errors
        ({ product := none, errors := errors }, s)

/-- A GraphQL ID argument: its string form (used in error messages) together
with the outcome of Python `int(...)` on it (`none` when that raises). -/
structure IdVal where
  raw : String
  parsed : Option Int
deriving Repr, DecidableEq

/-- Argument record of the `OrderInput` graphene input type. -/
structure OrderInput where
  customerId : IdVal
  productIds : List IdVal
  orderDate : Option Nat
deriving Repr, DecidableEq

/-- Payload of the `CreateOrder` mutation. -/
structure CreateOrderResult where
  order : Option Order
  errors : List String
deriving Repr, DecidableEq

/-- Step 1 of `CreateOrder.mutate`: `int(input.customer_id)` followed by
`Customer.objects.get(id=...)`; the ValueError and DoesNotExist failure modes
both collapse to `none`. -/
def resolveCustomer (s : State) (cid : IdVal) : Option Customer :=
  match cid.parsed with
  | none => none
  | some n => s.customers.find? (fun c => c.id == n)

/-- The list `product_ids_int` built by the id-parsing loop of
`CreateOrder.mutate`: the ids whose `int(...)` succeeded, in input order. -/
def product_ids_int (pids : List IdVal) : List Int :=
  pids.filterMap (fun pid => pid.parsed)

/-- The error strings appended by the same id-parsing loop, in input order. -/
def productIdParseErrors (pids : List IdVal) : List String :=
  pids.filterMap (fun pid =>
    match pid.parsed with
    | some _ => none
    | none => some ("Invalid product ID: " ++ pid.raw))

/-- Mirrors `Product.objects.filter(id__in=product_ids_int)`: the table rows
whose id occurs among the parsed ids, each row once, in table order. -/
def fetchedProducts (s : State) (pids : List IdVal) : List Product :=
  s.products.filter (fun p => (product_ids_int pids).contains p.id)

/-- The error list accumulated by steps 3 and 4 of `CreateOrder.mutate`: the
per-id parse errors followed, when `len(products) != len(set(product_ids_int))`,
by the count-mismatch error. -/
def step34Errors (s : State) (pids : List IdVal) : List String :=
  productIdParseErrors pids ++
    (if (fetchedProducts s pids).length ≠ (product_ids_int pids).dedup.length
     then ["One or more product IDs are invalid."] else [])

/-- The Order row persisted by a successful `CreateOrder.mutate`: the total
is the sum of the fetched prices into a decimal accumulator starting at zero,
the date is the supplied one or the current time, and the product
association holds the fetched products. -/
def newOrder (s : State) (input : OrderInput) (c : Customer) (now : Nat) : Order :=
  { id := s.nextId, customerId := c.id,
    productIds := (fetchedProducts s input.productIds).map (fun p => p.id),
    totalAmount :=
      (fetchedProducts s input.productIds).foldl (fun acc p => acc + p.price) (0 : ℚ),
    orderDate := match input.orderDate with | some d => d | none => now }

/-- Embedding of `CreateOrder.mutate`: resolve the customer (short-circuit),
reject an empty product list (short-circuit), then accumulate id-parse errors
and the distinct-count check; on any accumulated error return no order and
leave storage unchanged, otherwise persist the new order. -/
def createOrder (s : State) (input : OrderInput) (now : Nat) :
    CreateOrderResult × State :=
  match resolveCustomer s input.customerId with
  | none => ({ order := none, errors := ["Invalid customer ID."] }, s)
  | some customer =>
      if input.productIds = [] then
        ({ order := none, errors := ["At least one product must be provided."] }, s)
      else
        let errors := step34Errors s input.productIds
        if errors ≠ [] then
          ({ order := none, errors := errors }, s)
        else
          let o := newOrder s input customer now
          ({ order := some o, errors := [] },
           { s with orders := s.orders ++ [o], nextId := s.nextId + 1 })

/-- Argument record of the `CustomerFilterInput` graphene input type; a field
that the caller left absent or null is `none`. -/
structure CustomerFilterInput where
  name_icontains : Option String
  email_icontains : Option String
  created_at_gte : Option Nat
  created_at_lte : Option Nat
  phone_startswith : Option String
deriving Repr, DecidableEq

/-- Argument record of the `ProductFilterInput` graphene input type. -/
structure ProductFilterInput where
  name_icontains : Option String
  price_gte : Option ℚ
  price_lte : Option ℚ
  stock_gte : Option Int
  stock_lte : Option Int
deriving Repr, DecidableEq

/-- Argument record of the `OrderFilterInput` graphene input type; the
`product_id` field is a GraphQL ID. -/
structure OrderFilterInput where
  total_amount_gte : Option ℚ
  total_amount_lte : Option ℚ
  order_date_gte : Option Nat
  order_date_lte : Option Nat
  customer_name : Option String
  product_name : Option String
  product_id : Option IdVal
deriving Repr, DecidableEq

/-- Python truthiness of an optional string argument: kept only when present
and non-empty, as in `if filter.get("name_icontains"):`. -/
def truthyStr (v : Option String) : Option String :=
  match v with
  | some t => if t = "" then none else some t
  | none => none

/-- Python truthiness of an optional ID argument: kept only when its string
form is non-empty, as in `if filter.get("product_id"):`. -/
def truthyId (v : Option IdVal) : Option IdVal :=
  match v with
  | some t => if t.raw = "" then none else some t
  | none => none

/-- The `filter_data` dictionary built by `resolve_all_customers`: every key
is guarded by truthiness (a present date value is always truthy, so the date
keys keep any present value). -/
def customerFilterData (f : CustomerFilterInput) : CustomerFilterInput :=
  { name_icontains := truthyStr f.name_icontains,
    email_icontains := truthyStr f.email_icontains,
    created_at_gte := f.created_at_gte,
    created_at_lte := f.created_at_lte,
    phone_startswith := truthyStr f.phone_startswith }

/-- The `filter_data` dictionary built by `resolve_all_products`: the text key
is guarded by truthiness, the four numeric keys by `is not None` (kept
whenever present, even when zero). -/
def productFilterData (f : ProductFilterInput) : ProductFilterInput :=
  { name_icontains := truthyStr f.name_icontains,
    price_gte := f.price_gte,
    price_lte := f.price_lte,
    stock_gte := f.stock_gte,
    stock_lte := f.stock_lte }

/-- The `filter_data` dictionary built by `resolve_all_orders`: the two
amount keys by `is not None`, the date keys by truthiness (always kept when
present), the text and id keys by truthiness. -/
def orderFilterData (f : OrderFilterInput) : OrderFilterInput :=
  { total_amount_gte := f.total_amount_gte,
    total_amount_lte := f.total_amount_lte,
    order_date_gte := f.order_date_gte,
    order_date_lte := f.order_date_lte,
    customer_name := truthyStr f.customer_name,
    product_name := truthyStr f.product_name,
    product_id := truthyId f.product_id }

/-- Boolean test for one character list occurring contiguously inside
another. -/
def listInfix (needle hay : List Char) : Bool :=
  match hay with
  | [] => needle.isEmpty
  | _ :: t => needle.isPrefixOf hay || listInfix needle t

/-- Case-insensitive substring test.  Modelled from the spec: the repo file
`crm/filters.py` defining the `icontains` lookups is not among the sources
here; the spec describes text keys `*_icontains` as case-insensitive
substring matches. -/
def iContains (hay needle : String) : Bool :=
  listInfix needle.toLower.data hay.toLower.data

/-- Case-insensitive prefix test.  Modelled from the spec: `*_startswith`
keys are case-insensitive prefix matches per the spec filter table. -/
def iStartsWith (hay needle : String) : Bool :=
  needle.toLower.data.isPrefixOf hay.toLower.data

/-- Modelled from the spec: the predicate that `CustomerFilter` (from the
missing repo file `crm/filters.py`) applies for a given `filter_data` — each
present key contributes one conjunct, text keys as case-insensitive matches
(a customer without a phone matches no phone prefix) and range keys as
inclusive bounds; a `filter_data` with no keys keeps every row. -/
def customerMatches (d : CustomerFilterInput) (c : Customer) : Bool :=
  (match d.name_icontains with | some v => iContains c.name v | none => true) &&
  (match d.email_icontains with | some v => iContains c.email v | none => true) &&
  (match d.created_at_gte with | some v => decide (v ≤ c.createdAt) | none => true) &&
  (match d.created_at_lte with | some v => decide (c.createdAt ≤ v) | none => true) &&
  (match d.phone_startswith with
   | some v => (match c.phone with | some p => iStartsWith p v | none => false)
   | none => true)

/-- Modelled from the spec: the predicate applied by `ProductFilter`. -/
def productMatches (d : ProductFilterInput) (p : Product) : Bool :=
  (match d.name_icontains with | some v => iContains p.name v | none => true) &&
  (match d.price_gte with | some v => decide (v ≤ p.price) | none => true) &&
  (match d.price_lte with | some v => decide (p.price ≤ v) | none => true) &&
  (match d.stock_gte with | some v => decide (v ≤ p.stock) | none => true) &&
  (match d.stock_lte with | some v => decide (p.stock ≤ v) | none => true)

/-- Modelled from the spec: the predicate applied by `OrderFilter`; the
relationship keys join through the order-to-customer reference and the
order-to-product association. -/
def orderMatches (s : State) (d : OrderFilterInput) (o : Order) : Bool :=
  (match d.total_amount_gte with | some v => decide (v ≤ o.totalAmount) | none => true) &&
  (match d.total_amount_lte with | some v => decide (o.totalAmount ≤ v) | none => true) &&
  (match d.order_date_gte with | some v => decide (v ≤ o.orderDate) | none => true) &&
  (match d.order_date_lte with | some v => decide (o.orderDate ≤ v) | none => true) &&
  (match d.customer_name with
   | some v =>
       (match s.customers.find? (fun c => c.id == o.customerId) with
        | some c => iContains c.name v
        | none => false)
   | none => true) &&
  (match d.product_name with
   | some v =>
       (s.products.filter (fun p => o.productIds.contains p.id)).any
         (fun p => iContains p.name v)
   | none => true) &&
  (match d.product_id with
   | some v =>
       (match v.parsed with | some n => o.productIds.contains n | none => false)
   | none => true)

/-- A filter argument object with no keys set. -/
def emptyCustomerFilter : CustomerFilterInput :=
  { name_icontains := none, email_icontains := none, created_at_gte := none,
    created_at_lte := none, phone_startswith := none }

/-- A product filter argument object with no keys set. -/
def emptyProductFilter : ProductFilterInput :=
  { name_icontains := none, price_gte := none, price_lte := none,
    stock_gte := none, stock_lte := none }

/-- An order filter argument object with no keys set. -/
def emptyOrderFilter : OrderFilterInput :=
  { total_amount_gte := none, total_amount_lte := none, order_date_gte := none,
    order_date_lte := none, customer_name := none, product_name := none,
    product_id := none }

/-- Embedding of `resolve_all_customers` (the ordering argument is omitted:
the claims below compare calls with identical ordering, applied after the
filtering step). -/
def resolve_all_customers (s : State) (filt : Option CustomerFilterInput) :
    List Customer :=
  let data := match filt with
    | none => emptyCustomerFilter
    | some f => customerFilterData f
  s.customers.filter (customerMatches data)

/-- Embedding of `resolve_all_products`. -/
def resolve_all_products (s : State) (filt : Option ProductFilterInput) :
    List Product :=
  let data := match filt with
    | none => emptyProductFilter
    | some f => productFilterData f
  s.products.filter (productMatches data)

/-- Embedding of `resolve_all_orders`. -/
def resolve_all_orders (s : State) (filt : Option OrderFilterInput) :
    List Order :=
  let data := match filt with
    | none => emptyOrderFilter
    | some f => orderFilterData f
  s.orders.filter (orderMatches s data)

/-- Passing form of the phone precheck shared by the customer mutations: the
phone argument is absent, empty, or matches the regex.  This is the negation
of the source guard `phone and not PHONE_REGEX.match(phone)`. -/
def phoneAcceptable (phone : Option String) : Bool :=
  phone.getD "" == "" || phoneRegexMatch (phone.getD "")

/-- Restatement of the claimed phone shape, written from the claim wording
for comparison with the source regex: an optional leading plus sign, then 7
to 21 characters drawn from digits and hyphens whose first character is a
digit. -/
def specPhoneShape (s : String) : Bool :=
  let body := if s.data.head? == some '+' then s.data.tail else s.data
  decide (7 ≤ body.length) && decide (body.length ≤ 21) &&
    body.all isPhoneChar &&
    (match body.head? with | some d => d.isDigit | none => false)

/-- The claimed phone shape amended with the trailing-newline allowance of
the Python `$` anchor: the string itself, or the string with one final
newline removed, has the claimed shape. -/
def specPhoneShapeAmended (s : String) : Bool :=
  specPhoneShape s ||
    (s.data.getLast? == some '\n' && specPhoneShape (String.mk s.data.dropLast))

/-- Concrete product fixture, prices as in the seed script. -/
def prodLaptop : Product :=
  { id := 1, name := "Laptop", price := 999.99, stock := 10 }

/-- Concrete product fixture. -/
def prodMouse : Product :=
  { id := 2, name := "Wireless Mouse", price := 25.50, stock := 100 }

/-- Concrete customer fixture. -/
def custAlice : Customer :=
  { id := 1, name := "Alice", email := "alice@example.com",
    phone := some "+1234567890", createdAt := 0 }

/-- Concrete store fixture holding one customer and two products. -/
def demoState : State :=
  { customers := [custAlice], products := [prodLaptop, prodMouse],
    orders := [], nextId := 3 }

/-- Concrete order request for both demo products. -/
def demoOrderInput : OrderInput :=
  { customerId := { raw := "1", parsed := some 1 },
    productIds := [{ raw := "1", parsed := some 1 },
                   { raw := "2", parsed := some 2 }],
    orderDate := none }

/-- The order that the demo request persists. -/
def demoOrder : Order := newOrder demoState demoOrderInput custAlice 5

theorem phoneGuard_eq (phone : Option String) :
    (phone.getD "" != "" && !phoneRegexMatch (phone.getD ""))
      = !phoneAcceptable phone := by
  simp [phoneAcceptable, bne, Bool.not_or]

example :
    (createCustomer emptyState
      { name := "Alice", email := "a@x.com", phone := some "+1234567890" } 0).1.errors
      = [] := by decide

example :
    (createCustomer emptyState
      { name := "Alice", email := "a@x.com", phone := some "abc" } 0).1.errors
      = ["Invalid phone number format."] := by decide

example : phoneRegexMatch "123-456-7890" = true := by decide

example : phoneRegexMatch "12" = false := by decide

theorem phone_body_shape (body : List Char) :
    (match body with
     | [] => false
     | d :: rest =>
         d.isDigit && decide (6 ≤ rest.length) && decide (rest.length ≤ 20) &&
           rest.all isPhoneChar)
    = (decide (7 ≤ body.length) && decide (body.length ≤ 21) &&
        body.all isPhoneChar &&
        (match body.head? with | some d => d.isDigit | none => false)) := by
  cases body with
  | nil => simp
  | cons d rest =>
      cases hdig : d.isDigit with
      | false => simp [hdig, isPhoneChar]
      | true =>
          have e1 : decide (7 ≤ rest.length + 1) = decide (6 ≤ rest.length) :=
            decide_eq_decide.mpr (by omega)
          have e2 : decide (rest.length + 1 ≤ 21) = decide (rest.length ≤ 20) :=
            decide_eq_decide.mpr (by omega)
          simp [hdig, isPhoneChar, e1, e2, Bool.and_assoc]

theorem phonePatternCore_eq_shape (l : List Char) :
    phonePatternCore l = specPhoneShape (String.mk l) := by
  have hd : (String.mk l).data = l := rfl
  unfold phonePatternCore specPhoneShape
  rw [hd]
  exact phone_body_shape _

theorem phoneRegexMatch_eq_shape (s : String) :
    phoneRegexMatch s = specPhoneShapeAmended s := by
  unfold phoneRegexMatch specPhoneShapeAmended
  rw [phonePatternCore_eq_shape s.data, phonePatternCore_eq_shape s.data.dropLast]

theorem createCustomer_errors (s : State) (input : CustomerInput) (now : Nat) :
    (createCustomer s input now).1.errors =
      (if emailExists s input.email then ["Email already exists."] else []) ++
      (if input.phone.getD "" != "" && !phoneRegexMatch (input.phone.getD "")
       then ["Invalid phone number format."] else []) := by
  unfold createCustomer
  by_cases he : emailExists s input.email <;>
    cases hg : (input.phone.getD "" != "" && !phoneRegexMatch (input.phone.getD "")) <;>
      simp [he, hg]

/-- C6 counterexample: the phone value made of a valid core followed by one
newline character is accepted by the source regex (the Python dollar anchor
also matches just before a final newline), although it does not have the
claimed shape. -/
theorem c6_counterexample :
    (createCustomer emptyState
      { name := "Nina", email := "n@x.com", phone := some "+1234567890\n" }
      0).1.errors = [] ∧
    specPhoneShape "+1234567890\n" = false := by
  constructor
  · decide
  · decide

/-- C6 (amended): for every non-empty phone string, CreateCustomer reports
the error "Invalid phone number format." exactly when neither the string nor
the string with a single trailing newline removed matches: an optional
leading plus sign, then 7 to 21 characters drawn from digits and hyphens
whose first character is a digit.  In particular "+1234567890" and
"123-456-7890" are accepted while "abc" and "12" are rejected. -/
theorem c6_phone_validation (s : State) (input : CustomerInput) (now : Nat)
    (ph : String) (hph : input.phone = some ph) (hne : ph ≠ "") :
    ("Invalid phone number format." ∈ (createCustomer s input now).1.errors
      ↔ specPhoneShapeAmended ph = false) := by
  have hshape := phoneRegexMatch_eq_shape ph
  rw [createCustomer_errors, hph]
  have hbne : (ph != "") = true := bne_iff_ne.mpr hne
  by_cases he : emailExists s input.email <;>
    cases hpm : phoneRegexMatch ph <;>
      simp_all [List.mem_append, hbne]

/-- C6 witness: the amended theorem applied to the rejected phone "abc" on
the empty store. -/
theorem c6_witness :
    ("Invalid phone number format." ∈
        (createCustomer emptyState
          { name := "B", email := "b@x.com", phone := some "abc" } 0).1.errors
      ↔ specPhoneShapeAmended "abc" = false) :=
  c6_phone_validation emptyState
    { name := "B", email := "b@x.com", phone := some "abc" } 0 "abc" rfl
    (by decide)

/-- C1 counterexample: a call whose email is already stored and whose phone
is invalid gets the phone error appended as well, so the errors list is not
exactly the singleton email error the claim demands for every such call. -/
theorem c1_counterexample :
    (createCustomer
      { customers := [{ id := 1, name := "Eve", email := "a@x.com",
                        phone := none, createdAt := 0 }],
        products := [], orders := [], nextId := 2 }
      { name := "Mallory", email := "a@x.com", phone := some "abc" } 0).1.errors
      = ["Email already exists.", "Invalid phone number format."] ∧
    (["Email already exists.", "Invalid phone number format."] : List String)
      ≠ ["Email already exists."] := by
  constructor
  · decide
  · decide

/-- C1 (amended): every CreateCustomer call whose email already exists
returns customer = none, writes nothing, and reports "Email already exists."
as the first error; the errors list equals exactly that singleton precisely
when the supplied phone is empty or valid, an invalid phone adding the phone
error after it. -/
theorem c1_duplicate_email (s : State) (input : CustomerInput) (now : Nat)
    (h : emailExists s input.email = true) :
    (createCustomer s input now).1.customer = none ∧
    (createCustomer s input now).2 = s ∧
    (createCustomer s input now).1.errors.head? = some "Email already exists." ∧
    ((createCustomer s input now).1.errors = ["Email already exists."] ↔
      phoneAcceptable input.phone = true) := by
  have hg := phoneGuard_eq input.phone
  by_cases hp : phoneAcceptable input.phone = true
  · simp [createCustomer, h, hg, hp]
  · have hp2 : phoneAcceptable input.phone = false := by
      simpa using hp
    simp [createCustomer, h, hg, hp2]

/-- C2: BulkCreateCustomers processes rows in input order and persists a
passing row before the next row is validated, so in a two-row batch sharing
one email (first row fresh against the store, both phones passing) exactly
the first row is created and row 1 is reported, with a zero-based index, as
a duplicate-email error. -/
theorem c2_bulk_duplicate (s : State) (a b : CustomerInput) (now : Nat)
    (hdup : b.email = a.email)
    (hfresh : emailExists s a.email = false)
    (hpa : phoneAcceptable a.phone = true)
    (hpb : phoneAcceptable b.phone = true) :
    (bulkCreateCustomers s [a, b] now).1.customers
      = [mkCustomer s.nextId a now] ∧
    (bulkCreateCustomers s [a, b] now).1.errors
      = ["Row 1: Email already exists."] ∧
    (bulkCreateCustomers s [a, b] now).2
      = { s with customers := s.customers ++ [mkCustomer s.nextId a now],
                 nextId := s.nextId + 1 } := by
  have hg_a := phoneGuard_eq a.phone
  have hg_b := phoneGuard_eq b.phone
  have hjoin : String.intercalate "; " ["Email already exists."]
      = "Email already exists." := rfl
  have hrow : "Row " ++ toString (1 : Nat) ++ ": " ++ "Email already exists."
      = "Row 1: Email already exists." := rfl
  have h2 : emailExists
      { s with customers := s.customers ++ [mkCustomer s.nextId a now],
               nextId := s.nextId + 1 } b.email = true := by
    unfold emailExists
    rw [List.any_append]
    simp [mkCustomer, hdup]
  simp [bulkCreateCustomers, bulkRows, hfresh, hg_a, hg_b, hpa, hpb, h2,
        hjoin, hrow]

/-- C2 witness: the theorem applied to a batch of two rows with email
`a@x.com` against the empty store. -/
theorem c2_witness :
    (bulkCreateCustomers emptyState
      [{ name := "A", email := "a@x.com", phone := none },
       { name := "A", email := "a@x.com", phone := none }] 0).1.customers
      = [mkCustomer emptyState.nextId
          { name := "A", email := "a@x.com", phone := none } 0] ∧
    (bulkCreateCustomers emptyState
      [{ name := "A", email := "a@x.com", phone := none },
       { name := "A", email := "a@x.com", phone := none }] 0).1.errors
      = ["Row 1: Email already exists."] ∧
    (bulkCreateCustomers emptyState
      [{ name := "A", email := "a@x.com", phone := none },
       { name := "A", email := "a@x.com", phone := none }] 0).2
      = { emptyState with
            customers := emptyState.customers ++
              [mkCustomer emptyState.nextId
                { name := "A", email := "a@x.com", phone := none } 0],
            nextId := emptyState.nextId + 1 } :=
  c2_bulk_duplicate emptyState
    { name := "A", email := "a@x.com", phone := none }
    { name := "A", email := "a@x.com", phone := none } 0
    rfl (by decide) (by decide) (by decide)

/-- C1 witness: the amended theorem applied at a concrete store holding the
email `a@x.com` and a call with an empty phone. -/
theorem c1_witness :
    (createCustomer
      { customers := [{ id := 1, name := "Eve", email := "a@x.com",
                        phone := none, createdAt := 0 }],
        products := [], orders := [], nextId := 2 }
      { name := "Mallory", email := "a@x.com", phone := none } 0).1.errors
      = ["Email already exists."] :=
  ((c1_duplicate_email
      { customers := [{ id := 1, name := "Eve", email := "a@x.com",
                        phone := none, createdAt := 0 }],
        products := [], orders := [], nextId := 2 }
      { name := "Mallory", email := "a@x.com", phone := none } 0
      (by decide)).2.2.2).mpr (by decide)

theorem createOrder_failure (s : State) (input : OrderInput) (now : Nat)
    (c : Customer)
    (h1 : resolveCustomer s input.customerId = some c)
    (h2 : input.productIds ≠ [])
    (hE : step34Errors s input.productIds ≠ []) :
    createOrder s input now
      = ({ order := none, errors := step34Errors s input.productIds }, s) := by
  unfold createOrder
  rw [h1]
  simp [h2, hE]

theorem createOrder_success (s : State) (input : OrderInput) (now : Nat)
    (c : Customer)
    (h1 : resolveCustomer s input.customerId = some c)
    (h2 : input.productIds ≠ [])
    (hE : step34Errors s input.productIds = []) :
    createOrder s input now
      = ({ order := some (newOrder s input c now), errors := [] },
         { s with orders := s.orders ++ [newOrder s input c now],
                  nextId := s.nextId + 1 }) := by
  unfold createOrder
  rw [h1]
  simp [h2, hE]

/-- C5: CreateOrder short-circuits in two tiers: an unparseable or unknown
customer id yields exactly ["Invalid customer ID."] with no further checks
and no write, and with a resolved customer an empty product id list yields
exactly ["At least one product must be provided."] with no write. -/
theorem c5_short_circuits (s : State) (input : OrderInput) (now : Nat) :
    (resolveCustomer s input.customerId = none →
      createOrder s input now
        = ({ order := none, errors := ["Invalid customer ID."] }, s)) ∧
    (∀ c, resolveCustomer s input.customerId = some c →
      input.productIds = [] →
      createOrder s input now
        = ({ order := none,
             errors := ["At least one product must be provided."] }, s)) := by
  constructor
  · intro h
    unfold createOrder
    rw [h]
  · intro c hc hemp
    unfold createOrder
    rw [hc]
    simp [hemp]

/-- C5 witness: the theorem applied to an unparseable customer id on the
empty store, and to an empty product list against a store holding customer
id 1. -/
theorem c5_witness :
    createOrder emptyState
      { customerId := { raw := "x", parsed := none }, productIds := [],
        orderDate := none } 0
      = ({ order := none, errors := ["Invalid customer ID."] }, emptyState) ∧
    createOrder
      { customers := [{ id := 1, name := "C", email := "c@x.com",
                        phone := none, createdAt := 0 }],
        products := [], orders := [], nextId := 2 }
      { customerId := { raw := "1", parsed := some 1 }, productIds := [],
        orderDate := none } 0
      = ({ order := none, errors := ["At least one product must be provided."] },
         { customers := [{ id := 1, name := "C", email := "c@x.com",
                           phone := none, createdAt := 0 }],
           products := [], orders := [], nextId := 2 }) :=
  ⟨(c5_short_circuits emptyState
      { customerId := { raw := "x", parsed := none }, productIds := [],
        orderDate := none } 0).1 rfl,
   (c5_short_circuits
      { customers := [{ id := 1, name := "C", email := "c@x.com",
                        phone := none, createdAt := 0 }],
        products := [], orders := [], nextId := 2 }
      { customerId := { raw := "1", parsed := some 1 }, productIds := [],
        orderDate := none } 0).2
     { id := 1, name := "C", email := "c@x.com", phone := none, createdAt := 0 }
     (by decide) rfl⟩

/-- C3: with the customer resolved and a non-empty product id list, the
errors of the call are the per-id parse errors followed by the entry
"One or more product IDs are invalid." exactly when the number of fetched
products differs from the number of distinct parsed ids; whenever that list
is non-empty the call returns no order and writes nothing. -/
theorem c3_count_check (s : State) (input : OrderInput) (now : Nat)
    (c : Customer)
    (h1 : resolveCustomer s input.customerId = some c)
    (h2 : input.productIds ≠ []) :
    (createOrder s input now).1.errors
      = productIdParseErrors input.productIds ++
        (if (fetchedProducts s input.productIds).length
            ≠ (product_ids_int input.productIds).dedup.length
         then ["One or more product IDs are invalid."] else []) ∧
    ((createOrder s input now).1.errors ≠ [] →
      (createOrder s input now).1.order = none ∧
      (createOrder s input now).2 = s) := by
  by_cases hE : step34Errors s input.productIds = []
  · rw [createOrder_success s input now c h1 h2 hE]
    exact ⟨hE.symm, fun hne => absurd rfl hne⟩
  · rw [createOrder_failure s input now c h1 h2 hE]
    exact ⟨rfl, fun _ => ⟨rfl, rfl⟩⟩

/-- C3 witness: the theorem applied to a request naming a stored product and
a missing product id 9 against the demo store. -/
theorem c3_witness :
    (createOrder demoState
      { customerId := { raw := "1", parsed := some 1 },
        productIds := [{ raw := "1", parsed := some 1 },
                       { raw := "9", parsed := some 9 }],
        orderDate := none } 0).1.errors
      = productIdParseErrors
          [{ raw := "1", parsed := some 1 }, { raw := "9", parsed := some 9 }] ++
        (if (fetchedProducts demoState
              [{ raw := "1", parsed := some 1 },
               { raw := "9", parsed := some 9 }]).length
            ≠ (product_ids_int
                [{ raw := "1", parsed := some 1 },
                 { raw := "9", parsed := some 9 }]).dedup.length
         then ["One or more product IDs are invalid."] else []) ∧
    ((createOrder demoState
      { customerId := { raw := "1", parsed := some 1 },
        productIds := [{ raw := "1", parsed := some 1 },
                       { raw := "9", parsed := some 9 }],
        orderDate := none } 0).1.errors ≠ [] →
      (createOrder demoState
        { customerId := { raw := "1", parsed := some 1 },
          productIds := [{ raw := "1", parsed := some 1 },
                         { raw := "9", parsed := some 9 }],
          orderDate := none } 0).1.order = none ∧
      (createOrder demoState
        { customerId := { raw := "1", parsed := some 1 },
          productIds := [{ raw := "1", parsed := some 1 },
                         { raw := "9", parsed := some 9 }],
          orderDate := none } 0).2 = demoState) :=
  c3_count_check demoState
    { customerId := { raw := "1", parsed := some 1 },
      productIds := [{ raw := "1", parsed := some 1 },
                     { raw := "9", parsed := some 9 }],
      orderDate := none } 0 custAlice (by decide) (by decide)

/-- C4: the stored total of every successful CreateOrder is the sum of the
fetched products' prices — an exact rational summation, the accumulator
starting at zero. -/
theorem c4_total_amount (s : State) (input : OrderInput) (now : Nat)
    (o : Order) (h : (createOrder s input now).1.order = some o) :
    o.totalAmount
      = ((fetchedProducts s input.productIds).map Product.price).sum := by
  cases hr : resolveCustomer s input.customerId with
  | none =>
      unfold createOrder at h
      rw [hr] at h
      simp at h
  | some c =>
      by_cases h2 : input.productIds = []
      · unfold createOrder at h
        rw [hr] at h
        simp [h2] at h
      · by_cases hE : step34Errors s input.productIds = []
        · rw [createOrder_success s input now c hr h2 hE] at h
          simp at h
          rw [← h]
          rw [List.sum_eq_foldl, List.foldl_map]
          rfl
        · rw [createOrder_failure s input now c hr h2 hE] at h
          simp at h

/-- C4 witness: the theorem applied to the demo order over products priced
999.99 and 25.50; its stored total is exactly 1025.49. -/
theorem c4_witness :
    (createOrder demoState demoOrderInput 5).1.order = some demoOrder ∧
    demoOrder.totalAmount
      = ((fetchedProducts demoState demoOrderInput.productIds).map
          Product.price).sum ∧
    demoOrder.totalAmount = (1025.49 : ℚ) := by
  have hsucc := createOrder_success demoState demoOrderInput 5 custAlice
    (by decide) (by decide) (by decide)
  have hord : (createOrder demoState demoOrderInput 5).1.order = some demoOrder := by
    rw [hsucc]
    rfl
  have hfetch : fetchedProducts demoState demoOrderInput.productIds
      = [prodLaptop, prodMouse] := rfl
  refine ⟨hord, c4_total_amount demoState demoOrderInput 5 demoOrder hord, ?_⟩
  have ht : demoOrder.totalAmount = (0 : ℚ) + prodLaptop.price + prodMouse.price := by
    simp [demoOrder, newOrder, hfetch]
  rw [ht]
  norm_num [prodLaptop, prodMouse]

theorem createProduct_errors (s : State) (input : ProductInput) :
    (createProduct s input).1.errors =
      (match input.price with
       | .num q => if q ≤ 0 then ["Price must be positive."] else []
       | .notDecimal _ => ["Invalid price value."]) ++
      (if input.stock.getD 0 < 0 then ["Stock cannot be negative."] else []) := by
  have hst : (match input.stock with | some v => v | none => 0)
      = input.stock.getD 0 := by
    cases input.stock <;> rfl
  unfold createProduct
  rw [hst]
  cases hpv : input.price with
  | num q =>
      by_cases hq : q ≤ 0 <;> by_cases hs2 : input.stock.getD 0 < 0 <;>
        simp [hq, hs2]
  | notDecimal r =>
      by_cases hs2 : input.stock.getD 0 < 0 <;> simp [hs2]

theorem createProduct_failure (s : State) (input : ProductInput)
    (h : (createProduct s input).1.errors ≠ []) :
    (createProduct s input).1.product = none ∧ (createProduct s input).2 = s := by
  revert h
  have hst : (match input.stock with | some v => v | none => 0)
      = input.stock.getD 0 := by
    cases input.stock <;> rfl
  unfold createProduct
  rw [hst]
  cases hpv : input.price with
  | num q =>
      by_cases hq : q ≤ 0 <;> by_cases hs2 : input.stock.getD 0 < 0 <;>
        simp [hq, hs2]
  | notDecimal r =>
      by_cases hs2 : input.stock.getD 0 < 0 <;> simp [hs2]

/-- C7: CreateProduct reports an unparseable price, a non-positive price and
a negative stock each on its own (both categories appear together when both
fail, the price error first); any non-empty error list comes with product =
none and no write; an omitted stock is stored as 0. -/
theorem c7_create_product (s : State) (input : ProductInput) :
    (∀ r, input.price = PriceVal.notDecimal r →
      "Invalid price value." ∈ (createProduct s input).1.errors) ∧
    (∀ q, input.price = PriceVal.num q → q ≤ 0 →
      "Price must be positive." ∈ (createProduct s input).1.errors) ∧
    (input.stock.getD 0 < 0 →
      "Stock cannot be negative." ∈ (createProduct s input).1.errors) ∧
    ((createProduct s input).1.errors ≠ [] →
      (createProduct s input).1.product = none ∧
      (createProduct s input).2 = s) ∧
    (input.stock = none →
      ∀ p, (createProduct s input).1.product = some p → p.stock = 0) := by
  refine ⟨?_, ?_, ?_, createProduct_failure s input, ?_⟩
  · intro r hr
    rw [createProduct_errors, hr]
    simp
  · intro q hq hle
    rw [createProduct_errors, hq]
    simp [hle]
  · intro hs2
    rw [createProduct_errors]
    rcases hpv : input.price with q | r <;> simp [hpv, hs2]
  · intro hnone p hp
    revert hp
    unfold createProduct
    rcases hpv : input.price with q | r
    · by_cases hq : q ≤ 0 <;> simp [hnone, hq]
      intro h
      rw [← h]
    · simp [hnone]

/-- C7 witness: the theorem applied to an unparseable price together with a
negative stock (both errors reported, nothing written), and to a product
with omitted stock (stored as 0). -/
theorem c7_witness :
    "Invalid price value." ∈
      (createProduct emptyState
        { name := "P", price := PriceVal.notDecimal "notanumber",
          stock := some (-1) }).1.errors ∧
    "Stock cannot be negative." ∈
      (createProduct emptyState
        { name := "P", price := PriceVal.notDecimal "notanumber",
          stock := some (-1) }).1.errors ∧
    (createProduct emptyState
      { name := "P", price := PriceVal.notDecimal "notanumber",
        stock := some (-1) }).1.product = none ∧
    (createProduct emptyState
      { name := "P", price := PriceVal.notDecimal "notanumber",
        stock := some (-1) }).2 = emptyState ∧
    (∀ p, (createProduct emptyState
      { name := "Q", price := PriceVal.num 3, stock := none }).1.product = some p →
        p.stock = 0) := by
  refine ⟨(c7_create_product emptyState _).1 "notanumber" rfl,
          (c7_create_product emptyState _).2.2.1 (by decide),
          ?_, ?_, (c7_create_product emptyState _).2.2.2.2 rfl⟩
  · exact ((c7_create_product emptyState
      { name := "P", price := PriceVal.notDecimal "notanumber",
        stock := some (-1) }).2.2.2.1 (by decide)).1
  · exact ((c7_create_product emptyState
      { name := "P", price := PriceVal.notDecimal "notanumber",
        stock := some (-1) }).2.2.2.1 (by decide)).2

theorem mem_of_mem_product_ids_int (s : State) (input : OrderInput)
    (hall : ∀ pid ∈ input.productIds,
      ∃ n, pid.parsed = some n ∧ n ∈ s.products.map Product.id) :
    ∀ x ∈ product_ids_int input.productIds, x ∈ s.products.map Product.id := by
  intro x hx
  rw [product_ids_int, List.mem_filterMap] at hx
  obtain ⟨pid, hpid, hpx⟩ := hx
  obtain ⟨n, hn, hmem⟩ := hall pid hpid
  rw [hn] at hpx
  exact (Option.some.inj hpx) ▸ hmem

theorem fetched_ids_nodup (s : State) (pids : List IdVal)
    (hnodup : (s.products.map Product.id).Nodup) :
    ((fetchedProducts s pids).map Product.id).Nodup := by
  have hsl : List.Sublist (fetchedProducts s pids) s.products := by
    unfold fetchedProducts
    exact List.filter_sublist _
  exact List.Nodup.sublist (hsl.map Product.id) hnodup

theorem fetched_length_eq_dedup (s : State) (input : OrderInput)
    (hnodup : (s.products.map Product.id).Nodup)
    (hall : ∀ pid ∈ input.productIds,
      ∃ n, pid.parsed = some n ∧ n ∈ s.products.map Product.id) :
    (fetchedProducts s input.productIds).length
      = (product_ids_int input.productIds).dedup.length := by
  have hM := fetched_ids_nodup s input.productIds hnodup
  have hmemiff : ∀ x,
      x ∈ (fetchedProducts s input.productIds).map Product.id
        ↔ x ∈ (product_ids_int input.productIds).dedup := by
    intro x
    constructor
    · intro hx
      rw [List.mem_map] at hx
      obtain ⟨p, hp, rfl⟩ := hx
      rw [fetchedProducts, List.mem_filter] at hp
      rw [List.mem_dedup]
      exact List.elem_iff.mp hp.2
    · intro hx
      rw [List.mem_dedup] at hx
      have hxm := mem_of_mem_product_ids_int s input hall x hx
      rw [List.mem_map] at hxm
      obtain ⟨p, hp, rfl⟩ := hxm
      rw [List.mem_map]
      refine ⟨p, ?_, rfl⟩
      rw [fetchedProducts, List.mem_filter]
      exact ⟨hp, List.elem_iff.mpr hx⟩
  have hperm : List.Perm ((fetchedProducts s input.productIds).map Product.id)
      ((product_ids_int input.productIds).dedup) :=
    (List.perm_ext_iff_of_nodup hM (List.nodup_dedup _)).mpr hmemiff
  calc (fetchedProducts s input.productIds).length
      = ((fetchedProducts s input.productIds).map Product.id).length :=
        (List.length_map _ _).symm
    _ = (product_ids_int input.productIds).dedup.length := hperm.length_eq

/-- C10: a CreateOrder request whose product ids all parse and all name
stored products succeeds even when ids are repeated: the distinct-count
check compares against the deduplicated parsed ids, the persisted order is
associated with each distinct product exactly once, and its total counts
each distinct product's price exactly once (a sum over the product table
filtered by membership, which is indifferent to input multiplicity). -/
theorem c10_duplicate_ids (s : State) (input : OrderInput) (now : Nat)
    (c : Customer)
    (h1 : resolveCustomer s input.customerId = some c)
    (h2 : input.productIds ≠ [])
    (hnodup : (s.products.map Product.id).Nodup)
    (hall : ∀ pid ∈ input.productIds,
      ∃ n, pid.parsed = some n ∧ n ∈ s.products.map Product.id) :
    (createOrder s input now).1.errors = [] ∧
    (createOrder s input now).1.order = some (newOrder s input c now) ∧
    (newOrder s input c now).totalAmount
      = ((s.products.filter
          (fun p => (product_ids_int input.productIds).contains p.id)).map
          Product.price).sum ∧
    (newOrder s input c now).productIds
      = (s.products.filter
          (fun p => (product_ids_int input.productIds).contains p.id)).map
          Product.id ∧
    (newOrder s input c now).productIds.Nodup := by
  have hparse : productIdParseErrors input.productIds = [] := by
    rw [productIdParseErrors, List.filterMap_eq_nil_iff]
    intro pid hpid
    obtain ⟨n, hn, _⟩ := hall pid hpid
    simp [hn]
  have hlen := fetched_length_eq_dedup s input hnodup hall
  have hE : step34Errors s input.productIds = [] := by
    rw [step34Errors, hparse, hlen]
    simp
  rw [createOrder_success s input now c h1 h2 hE]
  refine ⟨rfl, rfl, ?_, rfl, ?_⟩
  · rw [List.sum_eq_foldl, List.foldl_map]
    rfl
  · exact fetched_ids_nodup s input.productIds hnodup

/-- C10 witness: the theorem applied to a request repeating product id 1
twice against the demo store; the order holds product 1 once. -/
theorem c10_witness :
    (createOrder demoState
      { customerId := { raw := "1", parsed := some 1 },
        productIds := [{ raw := "1", parsed := some 1 },
                       { raw := "1", parsed := some 1 }],
        orderDate := none } 0).1.errors = [] ∧
    (createOrder demoState
      { customerId := { raw := "1", parsed := some 1 },
        productIds := [{ raw := "1", parsed := some 1 },
                       { raw := "1", parsed := some 1 }],
        orderDate := none } 0).1.order
      = some (newOrder demoState
          { customerId := { raw := "1", parsed := some 1 },
            productIds := [{ raw := "1", parsed := some 1 },
                           { raw := "1", parsed := some 1 }],
            orderDate := none } custAlice 0) ∧
    (newOrder demoState
      { customerId := { raw := "1", parsed := some 1 },
        productIds := [{ raw := "1", parsed := some 1 },
                       { raw := "1", parsed := some 1 }],
        orderDate := none } custAlice 0).totalAmount
      = ((demoState.products.filter
          (fun p => (product_ids_int
            [{ raw := "1", parsed := some 1 },
             { raw := "1", parsed := some 1 }]).contains p.id)).map
          Product.price).sum ∧
    (newOrder demoState
      { customerId := { raw := "1", parsed := some 1 },
        productIds := [{ raw := "1", parsed := some 1 },
                       { raw := "1", parsed := some 1 }],
        orderDate := none } custAlice 0).productIds
      = (demoState.products.filter
          (fun p => (product_ids_int
            [{ raw := "1", parsed := some 1 },
             { raw := "1", parsed := some 1 }]).contains p.id)).map
          Product.id ∧
    (newOrder demoState
      { customerId := { raw := "1", parsed := some 1 },
        productIds := [{ raw := "1", parsed := some 1 },
                       { raw := "1", parsed := some 1 }],
        orderDate := none } custAlice 0).productIds.Nodup := by
  refine c10_duplicate_ids demoState
    { customerId := { raw := "1", parsed := some 1 },
      productIds := [{ raw := "1", parsed := some 1 },
                     { raw := "1", parsed := some 1 }],
      orderDate := none } 0 custAlice (by decide) (by decide) (by decide) ?_
  intro pid hpid
  simp only [List.mem_cons, List.not_mem_nil, or_false] at hpid
  rcases hpid with h | h <;> subst h <;> exact ⟨1, rfl, by decide⟩

/-- C8: for each of the three list queries, a filter object with no keys set
returns exactly the same collection as passing no filter at all. -/
theorem c8_empty_filter (s : State) :
    resolve_all_customers s (some emptyCustomerFilter)
      = resolve_all_customers s none ∧
    resolve_all_products s (some emptyProductFilter)
      = resolve_all_products s none ∧
    resolve_all_orders s (some emptyOrderFilter)
      = resolve_all_orders s none := by
  refine ⟨?_, ?_, ?_⟩ <;> rfl

/-- C9: a recognized text filter key set to the empty string (and, for the
order query, an id key with an empty string form) is dropped by the
truthiness guards exactly like an absent key, so the result equals the
unfiltered query. -/
theorem c9_falsy_filter_values (s : State) :
    resolve_all_customers s
      (some { name_icontains := some "", email_icontains := some "",
              created_at_gte := none, created_at_lte := none,
              phone_startswith := some "" })
      = resolve_all_customers s none ∧
    resolve_all_products s
      (some { name_icontains := some "", price_gte := none,
              price_lte := none, stock_gte := none, stock_lte := none })
      = resolve_all_products s none ∧
    resolve_all_orders s
      (some { total_amount_gte := none, total_amount_lte := none,
              order_date_gte := none, order_date_lte := none,
              customer_name := some "", product_name := some "",
              product_id := some { raw := "", parsed := none } })
      = resolve_all_orders s none := by
  refine ⟨?_, ?_, ?_⟩ <;> rfl
